import Mathlib

/-!
Verification of the LifeMonitor health-monitoring and notification engine:
a shallow embedding of the status-aggregation state machine
(lifemonitor/api/models/status.py), the build transition detection and
notification tasks (lifemonitor/tasks/tasks.py), and the per-resource lock
contract, together with proofs of the specified properties.
-/

namespace LifeMonitor

/-- The four aggregate status values of the class `AggregateTestStatus` in
lifemonitor/api/models/status.py (string constants in the source:
all_passing, some_passing, all_failing, not_available). -/
inductive AggregateTestStatus
  | NOT_AVAILABLE
  | ALL_PASSING
  | SOME_PASSING
  | ALL_FAILING
deriving DecidableEq, Repr

/-- Modelled from the spec: the build status values of `BuildStatus`
(lifemonitor/api/models/testsuites/testbuild.py, not under src/). The spec
describes a BuildOutcome status as Passed, Failed or Other; the detection
code only distinguishes PASSED, FAILED and everything else. -/
inductive BuildStatus
  | PASSED
  | FAILED
  | OTHER
deriving DecidableEq, Repr

/-- A fetched build record: its identity and its status. -/
structure TestBuild where
  build_id : Nat
  status : BuildStatus
deriving DecidableEq, Repr

/-- Modelled from the spec: `TestBuild.is_successful`
(lifemonitor/api/models/testsuites/testbuild.py, not under src/): a build
is successful exactly when its status is Passed. -/
def TestBuild.is_successful (b : TestBuild) : Bool :=
  b.status == BuildStatus.PASSED

namespace Status

/-- Embedding of the static method `Status._update_status` in
lifemonitor/api/models/status.py, lines 38-52: the if/elif chain folding
one build outcome into the running aggregate status. -/
def update_status (current_status : AggregateTestStatus) (build_passing : Bool) :
    AggregateTestStatus :=
  match current_status with
  | AggregateTestStatus.NOT_AVAILABLE =>
      if build_passing then AggregateTestStatus.ALL_PASSING
      else AggregateTestStatus.ALL_FAILING
  | AggregateTestStatus.ALL_PASSING =>
      if !build_passing then AggregateTestStatus.SOME_PASSING
      else AggregateTestStatus.ALL_PASSING
  | AggregateTestStatus.ALL_FAILING =>
      if build_passing then AggregateTestStatus.SOME_PASSING
      else AggregateTestStatus.ALL_FAILING
  | AggregateTestStatus.SOME_PASSING => AggregateTestStatus.SOME_PASSING

end Status

/-- The result of reading `test_instance.last_test_build` inside
`Status.check_status`: a build, no build, or a TestingServiceException
raised by the gateway (the except branch at status.py lines 82-88). -/
inductive GatewayResult
  | build (b : TestBuild)
  | noBuild
  | serviceError (message : String)
deriving DecidableEq, Repr

/-- A test instance as seen by `Status.check_status`: the url of its
testing service, its resource path, and the outcome of asking the gateway
for its last build. -/
structure TestInstance where
  service_url : String
  resource : String
  last_test_build : GatewayResult
deriving DecidableEq, Repr

/-- One availability-issue dictionary appended by `Status.check_status`,
keeping the fields the source stores in each dict. -/
inductive Issue
  | noSuitesConfigured
  | noInstancesConfigured (suite : String)
  | noBuildFound (service : String) (test_instance : String)
  | serviceIssue (service : String) (resource : String) (message : String)
deriving DecidableEq, Repr

/-- A test suite as seen by `Status.check_status`. -/
structure TestSuite where
  name : String
  test_instances : List TestInstance
deriving DecidableEq, Repr

/-- The running state of `Status.check_status`: the aggregate status, the
latest_builds list and the availability_issues list. -/
abbrev StatusAcc := AggregateTestStatus × List TestBuild × List Issue

namespace Status

/-- Embedding of the body of the inner instance loop of
`Status.check_status` (status.py lines 70-88): one of three things happens
for the instance, mirroring the try/except around `last_test_build`. -/
def processInstance (acc : StatusAcc) (ti : TestInstance) : StatusAcc :=
  let (status, latest_builds, availability_issues) := acc
  match ti.last_test_build with
  | GatewayResult.noBuild =>
      (status, latest_builds,
        availability_issues ++ [Issue.noBuildFound ti.service_url ti.resource])
  | GatewayResult.build b =>
      (Status.update_status status b.is_successful, latest_builds ++ [b],
        availability_issues)
  | GatewayResult.serviceError msg =>
      (status, latest_builds,
        availability_issues ++ [Issue.serviceIssue ti.service_url ti.resource msg])

/-- Embedding of the body of the suite loop of `Status.check_status`
(status.py lines 65-88): record a no-instances issue when the suite is
empty, then scan its instances. -/
def processSuite (acc : StatusAcc) (s : TestSuite) : StatusAcc :=
  let acc1 : StatusAcc :=
    if s.test_instances.length == 0 then
      (acc.1, acc.2.1, acc.2.2 ++ [Issue.noInstancesConfigured s.name])
    else acc
  s.test_instances.foldl processInstance acc1

/-- Embedding of the static method `Status.check_status`
(status.py lines 54-90). -/
def check_status (suites : List TestSuite) : StatusAcc :=
  let init : StatusAcc :=
    (AggregateTestStatus.NOT_AVAILABLE, [],
      if suites.length == 0 then [Issue.noSuitesConfigured] else [])
  suites.foldl processSuite init

end Status

/-- One step of the status reduction over fetched builds, as performed at
status.py line 81. -/
def statusStep (st : AggregateTestStatus) (b : TestBuild) : AggregateTestStatus :=
  Status.update_status st b.is_successful

/-- Folding a list of builds through the status reduction from
NOT_AVAILABLE, as `check_status` does with the builds it collects. -/
def foldStatus (builds : List TestBuild) : AggregateTestStatus :=
  builds.foldl statusStep AggregateTestStatus.NOT_AVAILABLE

/-! ## Transition detection and notification creation (tasks.py, check_last_build) -/

/-- Python membership test `status in (BuildStatus.FAILED, BuildStatus.PASSED)`
used at tasks.py lines 115-116. -/
def decisive (s : BuildStatus) : Bool :=
  s == BuildStatus.FAILED || s == BuildStatus.PASSED

/-- The kinds of the events `EventType.BUILD_FAILED` and
`EventType.BUILD_RECOVERED` used at tasks.py line 123. -/
inductive TransitionEvent
  | BUILD_FAILED
  | BUILD_RECOVERED
deriving DecidableEq, Repr

/-- Embedding of the state-transition condition of `check_last_build`
(tasks.py lines 113-117), with Python evaluation order and short-circuit
kept: the condition is
(len(builds) == 1 and failed) or (builds[0].status in (FAILED, PASSED)
and builds[1].status in (FAILED, PASSED) and len(builds) > 1 and
builds[1].status != last_build.status). The access builds[1] happens
before the len(builds) > 1 test; an out-of-range access is an
Except.error, as an IndexError in the source. -/
def transition_condition (builds : List TestBuild) (last_build : TestBuild) :
    Except String Bool :=
  let failed := last_build.status == BuildStatus.FAILED
  if builds.length == 1 && failed then Except.ok true
  else
    match builds[0]? with
    | none => Except.error "IndexError"
    | some b0 =>
      if !(decisive b0.status) then Except.ok false
      else
        match builds[1]? with
        | none => Except.error "IndexError"
        | some b1 =>
          if !(decisive b1.status) then Except.ok false
          else Except.ok (decide (builds.length > 1)
                  && (b1.status != last_build.status))

/-- The event emitted when the transition condition holds: BUILD_FAILED
when the last build failed, BUILD_RECOVERED otherwise (tasks.py line 123). -/
def detect_transition (builds : List TestBuild) (last_build : TestBuild) :
    Except String (Option TransitionEvent) :=
  match transition_condition builds last_build with
  | Except.error e => Except.error e
  | Except.ok c =>
      Except.ok (if c then
          some (if last_build.status == BuildStatus.FAILED then
              TransitionEvent.BUILD_FAILED
            else TransitionEvent.BUILD_RECOVERED)
        else none)

/-- The Python str of a build record, used to derive the notification name
at tasks.py line 119: a deterministic function of the build record. -/
def buildRepr (b : TestBuild) : String :=
  toString b.build_id

/-- The notification dedup name built at tasks.py line 119: the f-string
interpolating str of the last build and FAILED or RECOVERED. -/
def notification_name (last_build : TestBuild) (failed : Bool) : String :=
  buildRepr last_build ++ " " ++ (if failed then "FAILED" else "RECOVERED")

/-- The set of live notifications, identified by their dedup names, as
queried by `Notification.find_by_name` at tasks.py line 120. -/
structure NotificationStore where
  names : List String
deriving DecidableEq, Repr

/-- Embedding of `Notification.find_by_name`: the live notifications whose
name equals the given one. -/
def find_by_name (s : NotificationStore) (name : String) : List String :=
  s.names.filter (fun n => n == name)

/-- Embedding of tasks.py lines 120-127: create and save a new
notification only when no notification with this exact name exists. -/
def create_if_absent (s : NotificationStore) (name : String) : NotificationStore :=
  if (find_by_name s name).length == 0 then ⟨name :: s.names⟩ else s

/-- Embedding of the per-instance body of `check_last_build`
(tasks.py lines 107-127) given the fetched builds, newest first, with
last_test_build = builds[0]: evaluate the transition condition and, when
it holds, create the deduplicated notification. Errors raised while
evaluating the condition (the IndexError of lines 115-117, or the
attribute access on a missing last build) propagate as Except.error. -/
def check_instance_builds (builds : List TestBuild) (s : NotificationStore) :
    Except String NotificationStore :=
  match builds[0]? with
  | none => Except.error "AttributeError"
  | some last_build =>
    match transition_condition builds last_build with
    | Except.error e => Except.error e
    | Except.ok c =>
        if c then
          let failed := last_build.status == BuildStatus.FAILED
          Except.ok (create_if_absent s (notification_name last_build failed))
        else Except.ok s

/-- A test instance of the `check_last_build` iteration: its identity and
the builds the gateway returns for it, newest first. -/
structure InstanceRec where
  instance_id : Nat
  builds : List TestBuild
deriving DecidableEq, Repr

/-- A test suite of the latest workflow version in `check_last_build`. -/
structure SuiteRec where
  test_instances : List InstanceRec
deriving DecidableEq, Repr

/-- A workflow as iterated by `check_last_build`: the test suites of its
latest version. -/
structure WorkflowRec where
  test_suites : List SuiteRec
deriving DecidableEq, Repr

/-- The instance loop of `check_last_build` (tasks.py lines 105-127).
There is no try/except inside this loop: an error raised while processing
one instance aborts the remaining instances, so the function returns the
state reached so far (saved notifications persist), the ids of the
instances processed completely, and whether an error was raised. -/
def processInstancesSeq (s : NotificationStore) (processed : List Nat) :
    List InstanceRec → NotificationStore × List Nat × Bool
  | [] => (s, processed, false)
  | i :: rest =>
    match check_instance_builds i.builds s with
    | Except.ok s1 => processInstancesSeq s1 (processed ++ [i.instance_id]) rest
    | Except.error _ => (s, processed, true)

/-- The suite loop of `check_last_build` (tasks.py lines 103-127): an error
raised in one suite aborts the remaining suites of the same workflow. -/
def processSuitesSeq (s : NotificationStore) (processed : List Nat) :
    List SuiteRec → NotificationStore × List Nat × Bool
  | [] => (s, processed, false)
  | su :: rest =>
    let r := processInstancesSeq s processed su.test_instances
    if r.2.2 then r
    else processSuitesSeq r.1 r.2.1 rest

/-- The per-workflow body of `check_last_build` with its try/except
(tasks.py lines 101-131): any error raised inside the suite/instance loops
is caught and logged at this level, so the next workflow is processed from
the state reached so far. -/
def processWorkflow (acc : NotificationStore × List Nat) (w : WorkflowRec) :
    NotificationStore × List Nat :=
  let r := processSuitesSeq acc.1 acc.2 w.test_suites
  (r.1, r.2.1)

/-- Embedding of the task `check_last_build` (tasks.py lines 96-132): the
workflow loop, returning the final notification store and the ids of the
test instances processed completely. -/
def check_last_build (workflows : List WorkflowRec) (s : NotificationStore) :
    NotificationStore × List Nat :=
  workflows.foldl processWorkflow (s, [])

/-! ## Email dispatch (tasks.py, send_email_notifications) -/

/-- A user account as read by `send_email_notifications`: the email string
(the empty string models a missing address, falsy in the source) and the
email_notifications_enabled flag. -/
structure UserAccount where
  email : String
  email_notifications_enabled : Bool
deriving DecidableEq, Repr

/-- One entry of n.users: the per-recipient emailed timestamp paired with
the user account. -/
structure UserNotification where
  user : UserAccount
  emailed : Option Nat
deriving DecidableEq, Repr

/-- One notification as processed by `send_email_notifications`: its
per-recipient entries and whether n.save() has been called. -/
structure EmailNotification where
  users : List UserNotification
  saved : Bool
deriving DecidableEq, Repr

/-- The recipient filter of tasks.py line 146: emailed is None, email
notifications enabled, and a truthy email string. -/
def eligibleRecipient (u : UserNotification) : Bool :=
  u.emailed == none && u.user.email_notifications_enabled && u.user.email != ""

/-- The recipient list comprehension of tasks.py lines 144-147: the email
addresses of the eligible entries of n.users. -/
def notificationRecipients (n : EmailNotification) : List String :=
  (n.users.filter eligibleRecipient).map (fun u => u.user.email)

/-- Embedding of the per-notification body of `send_email_notifications`
(tasks.py lines 142-157), with the transport outcome
(send_notification, an external collaborator) passed in as sent: on a
successful send, every entry of n.users whose email string is a member of
the recipient list gets its emailed timestamp set, and the notification is
saved; on a failed send nothing changes. -/
def dispatchNotification (n : EmailNotification) (sent : Option Nat) :
    EmailNotification :=
  let recipients := notificationRecipients n
  match sent with
  | some sid =>
      { users := n.users.map (fun u =>
          if u.user.email ∈ recipients then { u with emailed := some sid } else u),
        saved := true }
  | none => n

/-! ## Notification cleanup (tasks.py, cleanup_notifications) -/

/-- A stored notification as seen by the purge job: its name and its
creation time (an integer UTC timestamp in seconds). -/
structure NotificationRecord where
  name : String
  created : Int
deriving DecidableEq, Repr

/-- Embedding of `Notification.older_than`: the notifications created
strictly before the given time. -/
def older_than (notifications : List NotificationRecord) (t : Int) :
    List NotificationRecord :=
  notifications.filter (fun n => decide (n.created < t))

/-- Embedding of the task `cleanup_notifications` (tasks.py lines
164-177): the threshold is current_time - timedelta(days=0) - zero days,
despite the variable name one_week_ago - and every notification older
than the threshold is deleted. The function returns the surviving
notifications. -/
def cleanup_notifications (current_time : Int)
    (notifications : List NotificationRecord) : List NotificationRecord :=
  let one_week_ago := current_time - 0 * 86400
  notifications.filter (fun n => !(decide (n.created < one_week_ago)))

/-! ## The per-resource lock (spec-modelled) -/

/-- Modelled from the spec: the per-resource lock behind
`cache.transaction` used at tasks.py lines 68 and 106. The lifemonitor
cache module implementing it is not under src/, so the state is modelled
from the withLock contract of the spec: a lock keyed per resource,
recording the holder, together with the list of mutations performed by
executed bodies. -/
structure PollState where
  lock : Option String
  mutations : List String
deriving DecidableEq, Repr

/-- Modelled from the spec: a non-blocking acquire of the per-resource
lock. When the lock is free the caller becomes the holder; when it is
held the caller fails and the polling pass for that resource is skipped
for the current cycle. -/
def tryAcquire (s : PollState) (tid : String) : PollState × Bool :=
  match s.lock with
  | none => ({ s with lock := some tid }, true)
  | some _ => (s, false)

/-- Modelled from the spec: the body of one polling pass run with the lock
held. The body records its mutation; whether or not it raises
(bodyThrows), the lock is released on exit, as by a finally clause. The
returned flag is whether the body raised. -/
def attemptBody (s : PollState) (tid : String) (bodyThrows : Bool) :
    PollState × Bool :=
  ({ lock := none, mutations := s.mutations ++ [tid] }, bodyThrows)

/-- Modelled from the spec: two concurrent polling attempts a and b on the
same resource key, overlapping: each tries to acquire the lock before
either has completed, then each attempt that acquired the lock runs its
body (the body of a may raise). -/
def concurrentPoll (a b : String) (aThrows : Bool) (s0 : PollState) :
    PollState × Bool × Bool :=
  let r1 := tryAcquire s0 a
  let r2 := tryAcquire r1.1 b
  let s3 := if r1.2 then (attemptBody r2.1 a aThrows).1 else r2.1
  let s4 := if r2.2 then (attemptBody s3 b false).1 else s3
  (s4, r1.2, r2.2)

/-! ## Helper lemmas about the status fold -/

/-- SOME_PASSING is absorbing for the status fold. -/
theorem foldl_update_some_passing (l : List TestBuild) :
    l.foldl statusStep AggregateTestStatus.SOME_PASSING
      = AggregateTestStatus.SOME_PASSING := by
  induction l with
  | nil => rfl
  | cons b t ih =>
    simp only [List.foldl_cons]
    have hstep : statusStep AggregateTestStatus.SOME_PASSING b
        = AggregateTestStatus.SOME_PASSING := rfl
    rw [hstep]
    exact ih

/-- Folding from ALL_PASSING stays ALL_PASSING exactly while every build
passes, and drops to SOME_PASSING otherwise. -/
theorem foldl_update_all_passing (l : List TestBuild) :
    l.foldl statusStep AggregateTestStatus.ALL_PASSING
      = if l.all (fun b => b.is_successful) then AggregateTestStatus.ALL_PASSING
        else AggregateTestStatus.SOME_PASSING := by
  induction l with
  | nil => rfl
  | cons b t ih =>
    simp only [List.foldl_cons, List.all_cons]
    rcases Bool.eq_false_or_eq_true b.is_successful with hb | hb
    · have hstep : statusStep AggregateTestStatus.ALL_PASSING b
          = AggregateTestStatus.ALL_PASSING := by
        simp [statusStep, Status.update_status, hb]
      rw [hstep, ih]
      simp [hb]
    · have hstep : statusStep AggregateTestStatus.ALL_PASSING b
          = AggregateTestStatus.SOME_PASSING := by
        simp [statusStep, Status.update_status, hb]
      rw [hstep, foldl_update_some_passing]
      simp [hb]


/-- Folding from ALL_FAILING stays ALL_FAILING exactly while every build
fails, and drops to SOME_PASSING otherwise. -/
theorem foldl_update_all_failing (l : List TestBuild) :
    l.foldl statusStep AggregateTestStatus.ALL_FAILING
      = if l.all (fun b => !b.is_successful) then AggregateTestStatus.ALL_FAILING
        else AggregateTestStatus.SOME_PASSING := by
  induction l with
  | nil => rfl
  | cons b t ih =>
    simp only [List.foldl_cons, List.all_cons]
    rcases Bool.eq_false_or_eq_true b.is_successful with hb | hb
    · have hstep : statusStep AggregateTestStatus.ALL_FAILING b
          = AggregateTestStatus.SOME_PASSING := by
        simp [statusStep, Status.update_status, hb]
      rw [hstep, foldl_update_some_passing]
      simp [hb]
    · have hstep : statusStep AggregateTestStatus.ALL_FAILING b
          = AggregateTestStatus.ALL_FAILING := by
        simp [statusStep, Status.update_status, hb]
      rw [hstep, ih]
      simp [hb]

/-- Closed form of the status fold: NOT_AVAILABLE on the empty list,
ALL_PASSING when every build passes, ALL_FAILING when every build fails,
SOME_PASSING on a mix. -/
def specStatus (l : List TestBuild) : AggregateTestStatus :=
  if l.isEmpty then AggregateTestStatus.NOT_AVAILABLE
  else if l.all (fun b => b.is_successful) then AggregateTestStatus.ALL_PASSING
  else if l.all (fun b => !b.is_successful) then AggregateTestStatus.ALL_FAILING
  else AggregateTestStatus.SOME_PASSING

/-- The status fold agrees with its closed form. -/
theorem foldStatus_eq_specStatus (l : List TestBuild) :
    foldStatus l = specStatus l := by
  cases l with
  | nil => rfl
  | cons b t =>
    simp only [foldStatus, List.foldl_cons]
    rcases Bool.eq_false_or_eq_true b.is_successful with hb | hb
    · have hstep : statusStep AggregateTestStatus.NOT_AVAILABLE b
          = AggregateTestStatus.ALL_PASSING := by
        simp [statusStep, Status.update_status, hb]
      rw [hstep, foldl_update_all_passing]
      rcases Bool.eq_false_or_eq_true (t.all (fun x => x.is_successful)) with hp | hp <;>
        simp [specStatus, hb, hp]
    · have hstep : statusStep AggregateTestStatus.NOT_AVAILABLE b
          = AggregateTestStatus.ALL_FAILING := by
        simp [statusStep, Status.update_status, hb]
      rw [hstep, foldl_update_all_failing]
      rcases Bool.eq_false_or_eq_true (t.all (fun x => !x.is_successful)) with hf | hf <;>
        simp [specStatus, hb, hf]

/-- The closed form only depends on emptiness and on which builds are
members, so it is invariant under permutation. -/
theorem specStatus_perm (l1 l2 : List TestBuild) (h : l1.Perm l2) :
    specStatus l1 = specStatus l2 := by
  have hempty : l1.isEmpty = l2.isEmpty := by
    rw [Bool.eq_iff_iff, List.isEmpty_iff, List.isEmpty_iff]
    constructor
    · intro h1; subst h1; exact h.symm.eq_nil
    · intro h2; subst h2; exact h.eq_nil
  have hallp : l1.all (fun b => b.is_successful) = l2.all (fun b => b.is_successful) := by
    rw [Bool.eq_iff_iff, List.all_eq_true, List.all_eq_true]
    exact ⟨fun H x hx => H x (h.mem_iff.mpr hx), fun H x hx => H x (h.mem_iff.mp hx)⟩
  have hallf : l1.all (fun b => !b.is_successful) = l2.all (fun b => !b.is_successful) := by
    rw [Bool.eq_iff_iff, List.all_eq_true, List.all_eq_true]
    exact ⟨fun H x hx => H x (h.mem_iff.mpr hx), fun H x hx => H x (h.mem_iff.mp hx)⟩
  simp [specStatus, hempty, hallp, hallf]

/-! ## The claims -/

/-- C9: the status aggregation is order-independent: folding any
permutation of a list of build outcomes through the status reduction
yields the same aggregate status, namely NOT_AVAILABLE on the empty list,
ALL_PASSING when all builds pass, ALL_FAILING when all fail, and
SOME_PASSING when the outcomes are mixed. -/
theorem C9_order_independent :
    (∀ l1 l2 : List TestBuild, l1.Perm l2 → foldStatus l1 = foldStatus l2)
    ∧ foldStatus [] = AggregateTestStatus.NOT_AVAILABLE
    ∧ (∀ l : List TestBuild, l ≠ [] → (∀ b ∈ l, b.is_successful = true) →
        foldStatus l = AggregateTestStatus.ALL_PASSING)
    ∧ (∀ l : List TestBuild, l ≠ [] → (∀ b ∈ l, b.is_successful = false) →
        foldStatus l = AggregateTestStatus.ALL_FAILING)
    ∧ (∀ l : List TestBuild, (∃ b ∈ l, b.is_successful = true) →
        (∃ b ∈ l, b.is_successful = false) →
        foldStatus l = AggregateTestStatus.SOME_PASSING) := by
  refine ⟨?_, rfl, ?_, ?_, ?_⟩
  · intro l1 l2 h
    rw [foldStatus_eq_specStatus, foldStatus_eq_specStatus]
    exact specStatus_perm l1 l2 h
  · intro l hne hall
    rw [foldStatus_eq_specStatus]
    have h0 : l.isEmpty = false := by
      rcases l with _ | ⟨a, t⟩
      · exact absurd rfl hne
      · rfl
    have h1 : l.all (fun b => b.is_successful) = true :=
      List.all_eq_true.mpr (fun x hx => hall x hx)
    simp [specStatus, h0, h1]
  · intro l hne hall
    rw [foldStatus_eq_specStatus]
    have h0 : l.isEmpty = false := by
      rcases l with _ | ⟨a, t⟩
      · exact absurd rfl hne
      · rfl
    have h1 : l.all (fun b => b.is_successful) = false := by
      rcases l with _ | ⟨a, t⟩
      · exact absurd rfl hne
      · have := hall a (by simp)
        simp [List.all_cons, this]
    have h2 : l.all (fun b => !b.is_successful) = true :=
      List.all_eq_true.mpr (fun x hx => by simp [hall x hx])
    simp [specStatus, h0, h1, h2]
  · intro l hpass hfail
    rw [foldStatus_eq_specStatus]
    obtain ⟨bp, hbp, hbps⟩ := hpass
    obtain ⟨bf, hbf, hbfs⟩ := hfail
    have h0 : l.isEmpty = false := by
      rcases l with _ | ⟨a, t⟩
      · simp at hbp
      · rfl
    have h1 : l.all (fun b => b.is_successful) = false := by
      rcases Bool.eq_false_or_eq_true (l.all (fun b => b.is_successful)) with h | h
      · exact absurd (List.all_eq_true.mp h bf hbf) (by simp [hbfs])
      · exact h
    have h2 : l.all (fun b => !b.is_successful) = false := by
      rcases Bool.eq_false_or_eq_true (l.all (fun b => !b.is_successful)) with h | h
      · exact absurd (List.all_eq_true.mp h bp hbp) (by simp [hbps])
      · exact h
    simp [specStatus, h0, h1, h2]

/-- Witness for C9 at concrete inputs: a two-build list and its swap fold
to the same status, a passing singleton is ALL_PASSING, a failing
singleton is ALL_FAILING, and a mixed list is SOME_PASSING. -/
theorem C9_order_independent_witness :
    foldStatus [⟨1, BuildStatus.PASSED⟩, ⟨2, BuildStatus.FAILED⟩]
        = foldStatus [⟨2, BuildStatus.FAILED⟩, ⟨1, BuildStatus.PASSED⟩]
    ∧ foldStatus [⟨1, BuildStatus.PASSED⟩] = AggregateTestStatus.ALL_PASSING
    ∧ foldStatus [⟨1, BuildStatus.FAILED⟩] = AggregateTestStatus.ALL_FAILING
    ∧ foldStatus [⟨1, BuildStatus.PASSED⟩, ⟨2, BuildStatus.FAILED⟩]
        = AggregateTestStatus.SOME_PASSING :=
  ⟨C9_order_independent.1 _ _ (List.Perm.swap _ _ _),
   C9_order_independent.2.2.1 _ (by decide) (by decide),
   C9_order_independent.2.2.2.1 _ (by decide) (by decide),
   C9_order_independent.2.2.2.2 _ (by decide) (by decide)⟩

/-- C2: with at least two builds, newest first and the newest as
last_build, detection completes without error and emits an event exactly
when both of the two newest builds have a decisive status and their
statuses differ; the event is BUILD_FAILED when the newest build failed
and BUILD_RECOVERED otherwise. -/
theorem C2_transition_two_builds :
    ∀ (b0 b1 : TestBuild) (rest : List TestBuild),
      detect_transition (b0 :: b1 :: rest) b0 =
        Except.ok
          (if decisive b0.status && decisive b1.status && (b1.status != b0.status)
            then some (if b0.status == BuildStatus.FAILED
                then TransitionEvent.BUILD_FAILED
              else TransitionEvent.BUILD_RECOVERED)
            else none) := by
  intro b0 b1 rest
  obtain ⟨i0, s0⟩ := b0
  obtain ⟨i1, s1⟩ := b1
  have hlen1 : (((⟨i0, s0⟩ : TestBuild) :: ⟨i1, s1⟩ :: rest).length == 1) = false := by
    simp [List.length_cons]
  have hlen2 : decide (((⟨i0, s0⟩ : TestBuild) :: ⟨i1, s1⟩ :: rest).length > 1) = true := by
    simp [List.length_cons]
  cases s0 <;> cases s1 <;>
    simp [detect_transition, transition_condition, decisive, hlen1, hlen2]

/-- C1: the status fold rule of `Status._update_status`: from
NOT_AVAILABLE a passing build yields ALL_PASSING and a failing build
yields ALL_FAILING; from ALL_PASSING a failing build yields SOME_PASSING;
from ALL_FAILING a passing build yields SOME_PASSING; in every other case
(SOME_PASSING absorbing, ALL_PASSING with a passing build, ALL_FAILING
with a failing build) the status is unchanged. -/
theorem C1_update_status_table :
    Status.update_status AggregateTestStatus.NOT_AVAILABLE true
        = AggregateTestStatus.ALL_PASSING
    ∧ Status.update_status AggregateTestStatus.NOT_AVAILABLE false
        = AggregateTestStatus.ALL_FAILING
    ∧ Status.update_status AggregateTestStatus.ALL_PASSING false
        = AggregateTestStatus.SOME_PASSING
    ∧ Status.update_status AggregateTestStatus.ALL_FAILING true
        = AggregateTestStatus.SOME_PASSING
    ∧ (∀ b : Bool, Status.update_status AggregateTestStatus.SOME_PASSING b
        = AggregateTestStatus.SOME_PASSING)
    ∧ Status.update_status AggregateTestStatus.ALL_PASSING true
        = AggregateTestStatus.ALL_PASSING
    ∧ Status.update_status AggregateTestStatus.ALL_FAILING false
        = AggregateTestStatus.ALL_FAILING := by
  decide

/-- C3 (code bug): with a single build, detection emits BUILD_FAILED when
that build failed, emits nothing when its status is indecisive, but on a
single PASSED build the source evaluates builds[1].status before checking
len(builds) > 1 and raises an IndexError instead of emitting nothing. -/
theorem C3_single_build_index_error :
    detect_transition [⟨0, BuildStatus.PASSED⟩] ⟨0, BuildStatus.PASSED⟩
        = Except.error "IndexError"
    ∧ detect_transition [⟨0, BuildStatus.FAILED⟩] ⟨0, BuildStatus.FAILED⟩
        = Except.ok (some TransitionEvent.BUILD_FAILED)
    ∧ detect_transition [⟨0, BuildStatus.OTHER⟩] ⟨0, BuildStatus.OTHER⟩
        = Except.ok none :=
  ⟨rfl, rfl, rfl⟩

/-- C6 (code bug): the purge job computes its threshold as
current_time - timedelta(days=0), so a notification created one second
before the purge run - far younger than the one-week retention the
variable name one_week_ago announces - is deleted. -/
theorem C6_purge_zero_retention :
    cleanup_notifications 100 [⟨"n", 99⟩] = []
    ∧ older_than [⟨"n", 99⟩] (100 - 0 * 86400) = [⟨"n", 99⟩]
    ∧ ((100 : Int) - 99 < 7 * 86400) := by
  decide

/-- The running status of a check_status accumulator always equals the
fold of the builds collected so far. -/
def statusMatchesBuilds (acc : StatusAcc) : Prop :=
  acc.1 = foldStatus acc.2.1

/-- Processing one instance preserves the fold invariant. -/
theorem processInstance_preserves_fold (acc : StatusAcc) (ti : TestInstance)
    (h : statusMatchesBuilds acc) :
    statusMatchesBuilds (Status.processInstance acc ti) := by
  obtain ⟨st, bs, iss⟩ := acc
  unfold statusMatchesBuilds at h ⊢
  cases g : ti.last_test_build with
  | noBuild => simpa [Status.processInstance, g] using h
  | serviceError msg => simpa [Status.processInstance, g] using h
  | build b =>
    simp only [Status.processInstance, g, foldStatus, List.foldl_append,
      List.foldl_cons, List.foldl_nil] at h ⊢
    rw [h]
    rfl

/-- Scanning a list of instances preserves the fold invariant. -/
theorem foldl_processInstance_preserves_fold (tis : List TestInstance) :
    ∀ acc : StatusAcc, statusMatchesBuilds acc →
      statusMatchesBuilds (tis.foldl Status.processInstance acc) := by
  induction tis with
  | nil => intro acc h; exact h
  | cons ti rest ih =>
    intro acc h
    exact ih _ (processInstance_preserves_fold acc ti h)

/-- Processing one suite preserves the fold invariant. -/
theorem processSuite_preserves_fold (acc : StatusAcc) (s : TestSuite)
    (h : statusMatchesBuilds acc) :
    statusMatchesBuilds (Status.processSuite acc s) := by
  unfold Status.processSuite
  apply foldl_processInstance_preserves_fold
  obtain ⟨st, bs, iss⟩ := acc
  rcases Bool.eq_false_or_eq_true (s.test_instances.length == 0) with he | he <;>
    simpa [he] using h

/-- C5: for every test instance scanned by check_status exactly one of two
things happens: its build is appended to the outcomes, or an availability
issue is appended; a gateway testing-service error appends an issue
carrying the service url and the error text while leaving the status and
the outcomes untouched, so the scan continues and the final aggregate
status is the fold of exactly the builds that were successfully fetched,
with no exception escaping check_status. -/
theorem C5_check_status_error_handling :
    (∀ (st : AggregateTestStatus) (bs : List TestBuild) (iss : List Issue)
        (url res msg : String),
      Status.processInstance (st, bs, iss) ⟨url, res, GatewayResult.serviceError msg⟩
        = (st, bs, iss ++ [Issue.serviceIssue url res msg]))
    ∧ (∀ (acc : StatusAcc) (ti : TestInstance),
        ((Status.processInstance acc ti).2.1.length = acc.2.1.length + 1
          ∧ (Status.processInstance acc ti).2.2 = acc.2.2)
        ∨ ((Status.processInstance acc ti).2.1 = acc.2.1
          ∧ (Status.processInstance acc ti).2.2.length = acc.2.2.length + 1))
    ∧ (∀ suites : List TestSuite,
        (Status.check_status suites).1 = foldStatus (Status.check_status suites).2.1) := by
  refine ⟨?_, ?_, ?_⟩
  · intro st bs iss url res msg
    rfl
  · intro acc ti
    obtain ⟨st, bs, iss⟩ := acc
    cases g : ti.last_test_build with
    | noBuild => right; simp [Status.processInstance, g]
    | serviceError msg => right; simp [Status.processInstance, g]
    | build b => left; simp [Status.processInstance, g]
  · intro suites
    have hinit : statusMatchesBuilds
        (AggregateTestStatus.NOT_AVAILABLE, [],
          if suites.length == 0 then [Issue.noSuitesConfigured] else []) := rfl
    have : ∀ (ss : List TestSuite) (acc : StatusAcc), statusMatchesBuilds acc →
        statusMatchesBuilds (ss.foldl Status.processSuite acc) := by
      intro ss
      induction ss with
      | nil => intro acc h; exact h
      | cons s rest ih =>
        intro acc h
        exact ih _ (processSuite_preserves_fold acc s h)
    exact this suites _ hinit

/-- In a store where the dedup name occurs at most once, creation keeps
every name occurring at most once. -/
theorem create_if_absent_count_le (s : NotificationStore) (nm nm' : String)
    (h : (find_by_name s nm').length ≤ 1) :
    (find_by_name (create_if_absent s nm) nm').length ≤ 1 := by
  unfold create_if_absent
  rcases Bool.eq_false_or_eq_true ((find_by_name s nm).length == 0) with habs | habs
  · simp only [habs, if_true]
    unfold find_by_name at h ⊢
    rcases Bool.eq_false_or_eq_true (nm == nm') with he | he
    · have heq : nm = nm' := by exact beq_iff_eq.mp he
      have h0 : (s.names.filter (fun n => n == nm')).length = 0 := by
        have := beq_iff_eq.mp habs
        rw [heq] at this
        exact this
      simp [List.filter_cons, he, h0]
    · simp [List.filter_cons, he, h]
  · simpa [habs] using h

/-- After creating a notification with a name, that name is present. -/
theorem create_if_absent_pos (s : NotificationStore) (nm : String) :
    1 ≤ (find_by_name (create_if_absent s nm) nm).length := by
  unfold create_if_absent
  rcases Bool.eq_false_or_eq_true ((find_by_name s nm).length == 0) with habs | habs
  · simp only [habs, if_true]
    unfold find_by_name
    simp [List.filter_cons]
  · have hne : (find_by_name s nm).length ≠ 0 := by
      intro h0
      rw [h0] at habs
      simp at habs
    rw [if_neg (by simp [habs])]
    omega

/-- Creating a name already present leaves the store unchanged. -/
theorem create_if_absent_stable (s : NotificationStore) (nm : String)
    (h : 1 ≤ (find_by_name s nm).length) :
    create_if_absent s nm = s := by
  unfold create_if_absent
  rcases Bool.eq_false_or_eq_true ((find_by_name s nm).length == 0) with habs | habs
  · have := beq_iff_eq.mp habs
    omega
  · simp [habs]

/-- C4: a notification is created only when no notification with the
derived dedup name exists, and the per-instance detection pass is
idempotent on an unchanged build list: when a pass succeeds, running it
again is a no-op and no dedup name ever occurs twice among the live
notifications. -/
theorem C4_notification_dedup :
    (∀ (s : NotificationStore) (nm : String),
      (find_by_name s nm).length ≠ 0 → create_if_absent s nm = s)
    ∧ (∀ (builds : List TestBuild) (s s1 : NotificationStore),
        (∀ nm, (find_by_name s nm).length ≤ 1) →
        check_instance_builds builds s = Except.ok s1 →
        check_instance_builds builds s1 = Except.ok s1
          ∧ ∀ nm, (find_by_name s1 nm).length ≤ 1) := by
  constructor
  · intro s nm h
    exact create_if_absent_stable s nm (by omega)
  · intro builds s s1 hcount hr
    cases h0 : builds[0]? with
    | none => simp [check_instance_builds, h0] at hr
    | some last =>
      cases hc : transition_condition builds last with
      | error e => simp [check_instance_builds, h0, hc] at hr
      | ok c =>
        cases c with
        | false =>
          simp [check_instance_builds, h0, hc] at hr
          subst hr
          refine ⟨?_, hcount⟩
          simp [check_instance_builds, h0, hc]
        | true =>
          simp [check_instance_builds, h0, hc] at hr
          subst hr
          have hst : create_if_absent
                (create_if_absent s
                  (notification_name last (last.status == BuildStatus.FAILED)))
                (notification_name last (last.status == BuildStatus.FAILED))
              = create_if_absent s
                  (notification_name last (last.status == BuildStatus.FAILED)) :=
            create_if_absent_stable _ _ (create_if_absent_pos s _)
          constructor
          · simp [check_instance_builds, h0, hc, hst]
          · intro nm
            exact create_if_absent_count_le s _ nm (hcount nm)

/-- Witness for C4 at a concrete input: a failing newest build over a
passing one, detected from the empty store, creates exactly one
notification; a second pass is a no-op and the dedup name occurs once. -/
theorem C4_notification_dedup_witness :
    check_instance_builds [⟨1, BuildStatus.FAILED⟩, ⟨2, BuildStatus.PASSED⟩]
        (NotificationStore.mk ["1 FAILED"])
      = Except.ok (NotificationStore.mk ["1 FAILED"])
    ∧ (find_by_name (NotificationStore.mk ["1 FAILED"]) "1 FAILED").length ≤ 1 :=
  have h := C4_notification_dedup.2
      [⟨1, BuildStatus.FAILED⟩, ⟨2, BuildStatus.PASSED⟩]
      (NotificationStore.mk []) (NotificationStore.mk ["1 FAILED"])
      (fun nm => by simp [find_by_name]) rfl
  ⟨h.1, h.2 "1 FAILED"⟩

/-- C7 (counterexample): in check_last_build the try/except sits at the
workflow level, so when the first test instance of a workflow raises (a
single PASSED build triggers the IndexError of C3) the second instance of
the same pass is never processed and its due notification is not created,
although processing that second instance alone would create it. -/
theorem C7_instance_error_skips_rest :
    check_last_build
        [WorkflowRec.mk [SuiteRec.mk
          [InstanceRec.mk 1 [⟨10, BuildStatus.PASSED⟩],
           InstanceRec.mk 2 [⟨20, BuildStatus.FAILED⟩, ⟨21, BuildStatus.PASSED⟩]]]]
        ⟨[]⟩
      = (⟨[]⟩, [])
    ∧ check_last_build
        [WorkflowRec.mk [SuiteRec.mk
          [InstanceRec.mk 2 [⟨20, BuildStatus.FAILED⟩, ⟨21, BuildStatus.PASSED⟩]]]]
        ⟨[]⟩
      = (⟨["20 FAILED"]⟩, [2]) := by
  decide

/-- C7 (amended): an exception raised while processing one resource is
caught and logged at the enclosing per-workflow loop of check_last_build:
it never escapes the task and it does not prevent the processing of the
remaining workflows of the same pass, which continue from the state
reached so far; but within the failing workflow the remaining instances
of the pass are skipped. -/
theorem C7_error_contained_per_workflow :
    (∀ (s : NotificationStore) (w : WorkflowRec) (rest : List WorkflowRec),
      (processSuitesSeq s [] w.test_suites).2.2 = true →
      check_last_build (w :: rest) s
        = rest.foldl processWorkflow (processWorkflow (s, []) w))
    ∧ (∀ (s : NotificationStore) (processed : List Nat) (i : InstanceRec)
        (rest : List InstanceRec) (e : String),
      check_instance_builds i.builds s = Except.error e →
      processInstancesSeq s processed (i :: rest) = (s, processed, true)) := by
  constructor
  · intro s w rest _h
    rfl
  · intro s processed i rest e he
    simp [processInstancesSeq, he]

/-- Witness for C7 at a concrete input: a workflow whose only suite raises
on its instance, followed by a second workflow, still lets the fold
continue with the second workflow, and the raising instance aborts its
own instance list. -/
theorem C7_error_contained_per_workflow_witness :
    check_last_build
        [WorkflowRec.mk [SuiteRec.mk [InstanceRec.mk 1 [⟨10, BuildStatus.PASSED⟩]]],
         WorkflowRec.mk [SuiteRec.mk
           [InstanceRec.mk 2 [⟨20, BuildStatus.FAILED⟩, ⟨21, BuildStatus.PASSED⟩]]]]
        ⟨[]⟩
      = [WorkflowRec.mk [SuiteRec.mk
           [InstanceRec.mk 2 [⟨20, BuildStatus.FAILED⟩, ⟨21, BuildStatus.PASSED⟩]]]].foldl
          processWorkflow
          (processWorkflow (⟨[]⟩, [])
            (WorkflowRec.mk [SuiteRec.mk [InstanceRec.mk 1 [⟨10, BuildStatus.PASSED⟩]]]))
    ∧ processInstancesSeq ⟨[]⟩ [] [InstanceRec.mk 1 [⟨10, BuildStatus.PASSED⟩]]
      = (⟨[]⟩, [], true) :=
  ⟨C7_error_contained_per_workflow.1 ⟨[]⟩
      (WorkflowRec.mk [SuiteRec.mk [InstanceRec.mk 1 [⟨10, BuildStatus.PASSED⟩]]])
      [WorkflowRec.mk [SuiteRec.mk
        [InstanceRec.mk 2 [⟨20, BuildStatus.FAILED⟩, ⟨21, BuildStatus.PASSED⟩]]]]
      (by decide),
   C7_error_contained_per_workflow.2 ⟨[]⟩ []
      (InstanceRec.mk 1 [⟨10, BuildStatus.PASSED⟩]) [] "IndexError" rfl⟩

/-- C8 (counterexample): the dispatcher marks recipients by email-string
membership, so when an excluded user entry (emailed already set) shares
its email address with an eligible entry of the same notification, the
successful send overwrites the excluded entry with the new emailed
timestamp, although that entry was not an eligible recipient. -/
theorem C8_shared_email_overwrites :
    eligibleRecipient ⟨⟨"a@x", true⟩, some 5⟩ = false
    ∧ (dispatchNotification
          ⟨[⟨⟨"a@x", true⟩, some 5⟩, ⟨⟨"a@x", true⟩, none⟩], false⟩ (some 9)).users
      = [⟨⟨"a@x", true⟩, some 9⟩, ⟨⟨"a@x", true⟩, some 9⟩] := by
  decide

/-- C8 (amended): the recipient list of a send is exactly the emails of
the eligible entries (emailed unset, notifications enabled, configured
address), and provided no excluded entry of the notification shares its
email string with an included recipient, a successful send sets the
emailed timestamp exactly for the eligible entries, leaves every excluded
entry untouched, and persists the notification. -/
theorem C8_dispatch_recipients :
    ∀ (n : EmailNotification) (sid : Nat),
      (∀ u ∈ n.users, eligibleRecipient u = false →
        u.user.email ∉ notificationRecipients n) →
      (dispatchNotification n (some sid)).users
          = n.users.map (fun u =>
              if eligibleRecipient u then ⟨u.user, some sid⟩ else u)
        ∧ (dispatchNotification n (some sid)).saved = true
        ∧ notificationRecipients n
            = (n.users.filter eligibleRecipient).map (fun u => u.user.email) := by
  intro n sid h
  refine ⟨?_, rfl, rfl⟩
  show n.users.map (fun u =>
      if u.user.email ∈ notificationRecipients n then { u with emailed := some sid }
      else u) = _
  apply List.map_congr_left
  intro u hu
  rcases Bool.eq_false_or_eq_true (eligibleRecipient u) with he | he
  · have hmem : u.user.email ∈ notificationRecipients n :=
      List.mem_map_of_mem _ (List.mem_filter.mpr ⟨hu, he⟩)
    rw [if_pos hmem, if_pos he]
  · have hnmem := h u hu he
    rw [if_neg hnmem, if_neg (by simp [he])]

/-- Witness for C8 at a concrete input: one eligible recipient and one
recipient with notifications disabled and a distinct address; the send
sets the timestamp only for the eligible one and persists. -/
theorem C8_dispatch_recipients_witness :
    (dispatchNotification
        ⟨[⟨⟨"a@x", true⟩, none⟩, ⟨⟨"b@x", false⟩, none⟩], false⟩ (some 3)).users
      = [⟨⟨"a@x", true⟩, some 3⟩, ⟨⟨"b@x", false⟩, none⟩]
    ∧ (dispatchNotification
        ⟨[⟨⟨"a@x", true⟩, none⟩, ⟨⟨"b@x", false⟩, none⟩], false⟩ (some 3)).saved
      = true :=
  have h := C8_dispatch_recipients
      ⟨[⟨⟨"a@x", true⟩, none⟩, ⟨⟨"b@x", false⟩, none⟩], false⟩ 3 (by decide)
  ⟨h.1.trans (by decide), h.2.1⟩

/-- C10: of two concurrent polling attempts on the same resource key, the
one that acquires the lock executes its body and the other fails to
acquire, performs no mutation and is skipped; the lock is free again at
the end on every exit path of the body, whether or not the body raised. -/
theorem C10_lock_mutual_exclusion :
    ∀ (a b : String) (aThrows : Bool) (m : List String),
      (concurrentPoll a b aThrows ⟨none, m⟩).2.1 = true
      ∧ (concurrentPoll a b aThrows ⟨none, m⟩).2.2 = false
      ∧ (concurrentPoll a b aThrows ⟨none, m⟩).1.mutations = m ++ [a]
      ∧ (concurrentPoll a b aThrows ⟨none, m⟩).1.lock = none := by
  intro a b aThrows m
  simp [concurrentPoll, tryAcquire, attemptBody]

end LifeMonitor
